import Mathlib

/-!
Verification of the loan calculation pipeline of `excelCalculate`
(`src/main.py` and `src/backup.py`).

The two Python source files implement the same pure core: a piecewise
insurance-rate lookup `calculate_insurance_rate` and a record processor
`process_record` that derives every output field of one spreadsheet row
from one flat loan input record.

Embedding conventions:
* Python floats are modelled by exact rationals `ℚ`; all inputs and rate
  constants in the source are short decimal literals, which `ℚ` represents
  exactly.
* Python's `round(x, 2)` (round half to even, two decimal places) is
  modelled by `roundHalfEven2`.
* The f-string `{x:,.2f}` currency format (thousands separators, exactly
  two decimals) is modelled by `formatFix2`; the plain `{v}` interpolation
  of the numeric record fields is modelled by `pyRepr` (an integer prints
  with no decimal point, a terminating decimal prints its digits).
* Python raises `ZeroDivisionError` on division by zero, so
  `process_record` returns `Except PyArithError LoanOutputRow` with the
  zero check placed exactly where the source divides by `loan_period`.
-/

/-- Input record, after `LoanInput` of `src/main.py` (the `records` dicts of
`src/backup.py` carry the same fields). -/
structure LoanInput where
  sample_no : String
  customer_reference : String
  customer_name : String
  city_state : String
  A : ℚ
  down_payment : ℚ
  loan_period : ℤ
  annuity_interest : ℚ
  purchase_value_reduction : ℚ
  monthly_principal_reduction : ℚ
  total_interest_reduction : ℚ
  guarantor_name : String
  guarantor_reference : String
deriving DecidableEq, Repr

/-- One output spreadsheet row: the dict returned by `process_record`,
with its fixed display keys turned into fields. -/
structure LoanOutputRow where
  sample_no : String
  customer_reference_number : String
  customer_name : String
  city_state : String
  purchase_value_and_down_payment : String
  loan_period_and_annuity_interest : String
  guarantor_name : String
  guarantor_reference_number : String
  loan_amount_and_principal : String
  total_interest_for_loan : String
  insurance_per_month : String
deriving DecidableEq, Repr

/-- The arithmetic error Python raises on division by zero. -/
inductive PyArithError where
  | zeroDivisionError
deriving DecidableEq, Repr

/-- `calculate_insurance_rate` of `src/main.py` lines 24-35 (identical in
`src/backup.py` lines 10-26). `none` is Python's `None` ("not applicable"). -/
def calculate_insurance_rate (loan_percentage : ℚ) (loan_period : ℤ) : Option ℚ :=
  if loan_percentage > 95.01 then none
  else if 70 ≤ loan_percentage ∧ loan_percentage ≤ 80.99 then some 0.0032
  else if loan_percentage = 81 then some (if loan_period ≤ 25 then 0.0021 else 0.0032)
  else if 81.01 ≤ loan_percentage ∧ loan_percentage ≤ 90 then
    some (if loan_period ≤ 25 then 0.0041 else 0.0052)
  else if 90.01 ≤ loan_percentage ∧ loan_percentage ≤ 95 then
    some (if loan_period ≤ 25 then 0.0067 else 0.0078)
  else none

/-- Round half to even to the nearest integer, Python's `round` convention. -/
def rnHalfEven (x : ℚ) : ℤ :=
  let f := ⌊x⌋
  let r := x - (f : ℚ)
  if r < 1/2 then f
  else if 1/2 < r then f + 1
  else if f % 2 = 0 then f else f + 1

/-- Python's `round(x, 2)`: round half to even at two decimal places. -/
def roundHalfEven2 (x : ℚ) : ℚ := (rnHalfEven (100 * x) : ℚ) / 100

/-- Group the (reversed) digit list in threes, inserting commas: the
thousands separators of the `{x:,.2f}` format. -/
def group3 : List Char → List Char
  | a :: b :: c :: d :: rest => a :: b :: c :: ',' :: group3 (d :: rest)
  | l => l

/-- A natural number with thousands separators, e.g. `1234567 ↦ "1,234,567"`. -/
def commaFmt (n : ℕ) : String :=
  String.mk ((group3 (toString n).data.reverse).reverse)

/-- Python's `f"{x:,.2f}"`: round half to even to two decimals, thousands
separators in the integer part, always exactly two fractional digits. -/
def formatFix2 (x : ℚ) : String :=
  let c := rnHalfEven (100 * x)
  let m := c.natAbs
  (if c < 0 then "-" else "") ++ commaFmt (m / 100) ++ "." ++
    (if m % 100 < 10 then "0" ++ toString (m % 100) else toString (m % 100))

/-- Fractional decimal digits of `x ∈ [0,1)`, most significant first,
stopping at zero (fuel-bounded; all source inputs terminate well inside). -/
def fracDigits : Nat → ℚ → List Char
  | 0, _ => []
  | fuel + 1, x =>
    if x = 0 then []
    else
      let y := 10 * x
      let d := ⌊y⌋
      Nat.digitChar d.toNat :: fracDigits fuel (y - (d : ℚ))

/-- Python's `f"{v}"` on the numeric record fields: an integer prints with
no decimal point (the sample dicts of `src/backup.py` hold ints there), a
terminating decimal prints its digits. -/
def pyRepr (q : ℚ) : String :=
  if q.den = 1 then toString q.num
  else
    (if q < 0 then "-" else "") ++ toString ⌊|q|⌋ ++ "." ++
      String.mk (fracDigits 30 (|q| - (⌊|q|⌋ : ℚ)))

/-- Step 1: `purchase_value = A * purchase_value_reduction / 100`. -/
def purchase_value (d : LoanInput) : ℚ := d.A * d.purchase_value_reduction / 100

/-- Step 2: `loan_amount = purchase_value * down_payment / 100`. -/
def loan_amount (d : LoanInput) : ℚ := purchase_value d * d.down_payment / 100

/-- Step 3a: `base_principal = (loan_amount / loan_period) / 12`. -/
def base_principal (d : LoanInput) : ℚ :=
  loan_amount d / (d.loan_period : ℚ) / 12

/-- Step 3b: `principal = base_principal - base_principal * monthly_principal_reduction / 100`. -/
def principal (d : LoanInput) : ℚ :=
  base_principal d - base_principal d * d.monthly_principal_reduction / 100

/-- Step 4a: `base_interest = loan_amount * loan_period`. -/
def base_interest (d : LoanInput) : ℚ := loan_amount d * (d.loan_period : ℚ)

/-- Step 4b: `interest_value = base_interest * annuity_interest / 100`. -/
def interest_value (d : LoanInput) : ℚ :=
  base_interest d * d.annuity_interest / 100

/-- Step 4c: `total_interest = interest_value - interest_value * total_interest_reduction / 100`. -/
def total_interest (d : LoanInput) : ℚ :=
  interest_value d - interest_value d * d.total_interest_reduction / 100

/-- Step 5: `loan_percentage = 100 - down_payment`. -/
def loan_percentage (d : LoanInput) : ℚ := 100 - d.down_payment

/-- Step 6: the `insurance_monthly` local of `process_record`:
Python's `"NA"` branch is kept as `none`, otherwise
`round(loan_amount * rate / 12, 2)`. -/
def insurance_monthly (d : LoanInput) : Option ℚ :=
  match calculate_insurance_rate (loan_percentage d) d.loan_period with
  | none => none
  | some rate => some (roundHalfEven2 (loan_amount d * rate / 12))

/-- `process_record` of `src/main.py` lines 57-97 (same pipeline in
`src/backup.py` lines 32-85). Python raises `ZeroDivisionError` at the
`loan_amount / loan_period` division when `loan_period = 0`; every other
input yields the complete formatted row. -/
def process_record (d : LoanInput) : Except PyArithError LoanOutputRow :=
  if d.loan_period = 0 then .error .zeroDivisionError
  else .ok {
    sample_no := d.sample_no
    customer_reference_number := d.customer_reference
    customer_name := d.customer_name
    city_state := d.city_state
    purchase_value_and_down_payment :=
      "$  " ++ formatFix2 (purchase_value d) ++ " and " ++ pyRepr d.down_payment ++ "%"
    loan_period_and_annuity_interest :=
      toString d.loan_period ++ " Years and " ++ pyRepr d.annuity_interest ++ "%"
    guarantor_name := d.guarantor_name
    guarantor_reference_number := d.guarantor_reference
    loan_amount_and_principal :=
      "$  " ++ formatFix2 (loan_amount d) ++ " , " ++ formatFix2 (principal d)
    total_interest_for_loan := "$  " ++ formatFix2 (total_interest d)
    insurance_per_month :=
      match insurance_monthly d with
      | none => "NA"
      | some v => "$  " ++ formatFix2 v }

/-- The sample record of `src/backup.py` lines 91-107. -/
def sampleInput : LoanInput where
  sample_no := "1"
  customer_reference := "CR12345"
  customer_name := "John Doe"
  city_state := "New York, NY"
  A := 88850508.30
  down_payment := 29
  loan_period := 16
  annuity_interest := 8.7
  purchase_value_reduction := 14.56
  monthly_principal_reduction := 9.76
  total_interest_reduction := 15.42
  guarantor_name := "Mark Doe"
  guarantor_reference := "GR98765"

/-- Helper: the rate lookup falls through to the catch-all `none` whenever
no band condition holds. -/
lemma calculate_insurance_rate_eq_none_of_uncovered (x : ℚ) (p : ℤ)
    (n1 : ¬(70 ≤ x ∧ x ≤ 80.99)) (n2 : x ≠ 81)
    (n3 : ¬((81.01 : ℚ) ≤ x ∧ x ≤ 90)) (n4 : ¬((90.01 : ℚ) ≤ x ∧ x ≤ 95)) :
    calculate_insurance_rate x p = none := by
  unfold calculate_insurance_rate
  split_ifs <;> rfl

/-- C2: the rate lookup returns the spec's band values at the named test
points, and at `loan_percentage = 81` exactly the rate is `0.0021` when
`loan_period ≤ 25` and `0.0032` otherwise. -/
theorem calculate_insurance_rate_band_coverage :
    calculate_insurance_rate 80 20 = some 0.0032 ∧
    calculate_insurance_rate 81 20 = some 0.0021 ∧
    calculate_insurance_rate 81 30 = some 0.0032 ∧
    calculate_insurance_rate 85 30 = some 0.0052 ∧
    calculate_insurance_rate 95 20 = some 0.0067 ∧
    calculate_insurance_rate 96 20 = none ∧
    calculate_insurance_rate 50 20 = none ∧
    (∀ p : ℤ, calculate_insurance_rate 81 p =
      some (if p ≤ 25 then 0.0021 else 0.0032)) := by
  refine ⟨?_, ?_, ?_, ?_, ?_, ?_, ?_, ?_⟩
  · unfold calculate_insurance_rate
    rw [if_neg (by norm_num), if_pos (by norm_num)]
  · unfold calculate_insurance_rate
    rw [if_neg (by norm_num), if_neg (by norm_num), if_pos rfl, if_pos (by norm_num)]
  · unfold calculate_insurance_rate
    rw [if_neg (by norm_num), if_neg (by norm_num), if_pos rfl, if_neg (by norm_num)]
  · unfold calculate_insurance_rate
    rw [if_neg (by norm_num), if_neg (by norm_num), if_neg (by norm_num),
      if_pos (by norm_num), if_neg (by norm_num)]
  · unfold calculate_insurance_rate
    rw [if_neg (by norm_num), if_neg (by norm_num), if_neg (by norm_num),
      if_neg (by norm_num), if_pos (by norm_num), if_pos (by norm_num)]
  · unfold calculate_insurance_rate
    rw [if_pos (by norm_num)]
  · exact calculate_insurance_rate_eq_none_of_uncovered 50 20
      (by rintro ⟨u, v⟩; norm_num at u) (by norm_num)
      (by rintro ⟨u, v⟩; norm_num at u) (by rintro ⟨u, v⟩; norm_num at u)
  · intro p
    unfold calculate_insurance_rate
    rw [if_neg (by norm_num), if_neg (by norm_num), if_pos rfl]

/-- C3: for every loan period the lookup returns `none` strictly inside the
uncovered gaps `(95, 95.01)`, `(80.99, 81)`, `(81, 81.01)`, below `70`,
and above `95.01`. -/
theorem calculate_insurance_rate_gaps (x : ℚ) (p : ℤ)
    (h : (95 < x ∧ x < 95.01) ∨ ((80.99 : ℚ) < x ∧ x < 81) ∨
         (81 < x ∧ x < 81.01) ∨ x < 70 ∨ (95.01 : ℚ) < x) :
    calculate_insurance_rate x p = none := by
  rcases h with ⟨a, b⟩ | ⟨a, b⟩ | ⟨a, b⟩ | a | a <;>
    exact calculate_insurance_rate_eq_none_of_uncovered x p
      (by rintro ⟨u, v⟩; linarith) (by rintro rfl; linarith)
      (by rintro ⟨u, v⟩; linarith) (by rintro ⟨u, v⟩; linarith)

/-- Witness for C3 at concrete gap points. -/
theorem calculate_insurance_rate_gaps_witness :
    calculate_insurance_rate 95.005 20 = none ∧
    calculate_insurance_rate 80.995 20 = none ∧
    calculate_insurance_rate 81.005 20 = none ∧
    calculate_insurance_rate 42 20 = none ∧
    calculate_insurance_rate 120 20 = none :=
  ⟨calculate_insurance_rate_gaps 95.005 20 (Or.inl (by norm_num)),
   calculate_insurance_rate_gaps 80.995 20 (Or.inr (Or.inl (by norm_num))),
   calculate_insurance_rate_gaps 81.005 20 (Or.inr (Or.inr (Or.inl (by norm_num)))),
   calculate_insurance_rate_gaps 42 20 (Or.inr (Or.inr (Or.inr (Or.inl (by norm_num))))),
   calculate_insurance_rate_gaps 120 20 (Or.inr (Or.inr (Or.inr (Or.inr (by norm_num)))))⟩

/-- C10: for every input the lookup returns `none` or one of exactly the
six constants `0.0021, 0.0032, 0.0041, 0.0052, 0.0067, 0.0078`. -/
theorem calculate_insurance_rate_range (x : ℚ) (p : ℤ) :
    calculate_insurance_rate x p = none ∨
    ∃ r, calculate_insurance_rate x p = some r ∧
      (r = 0.0021 ∨ r = 0.0032 ∨ r = 0.0041 ∨ r = 0.0052 ∨ r = 0.0067 ∨ r = 0.0078) := by
  unfold calculate_insurance_rate
  split_ifs <;>
    first
      | exact Or.inl rfl
      | exact Or.inr ⟨_, rfl, by norm_num⟩

/-- C1: for `loan_period ≠ 0` the record processor computes its
intermediate values by the fixed pipeline, each downstream value a
function of upstream ones only, and produces a complete row. -/
theorem process_record_pipeline (d : LoanInput) (h : d.loan_period ≠ 0) :
    purchase_value d = d.A * d.purchase_value_reduction / 100 ∧
    loan_amount d = purchase_value d * d.down_payment / 100 ∧
    base_principal d = loan_amount d / (d.loan_period : ℚ) / 12 ∧
    principal d = base_principal d - base_principal d * d.monthly_principal_reduction / 100 ∧
    base_interest d = loan_amount d * (d.loan_period : ℚ) ∧
    interest_value d = base_interest d * d.annuity_interest / 100 ∧
    total_interest d = interest_value d - interest_value d * d.total_interest_reduction / 100 ∧
    loan_percentage d = 100 - d.down_payment ∧
    ∃ row, process_record d = Except.ok row := by
  refine ⟨rfl, rfl, rfl, rfl, rfl, rfl, rfl, rfl, ?_⟩
  unfold process_record
  rw [if_neg h]
  exact ⟨_, rfl⟩

/-- Witness for C1 at the sample record. -/
theorem process_record_pipeline_witness :
    ∃ row, process_record sampleInput = Except.ok row :=
  (process_record_pipeline sampleInput (by decide)).2.2.2.2.2.2.2.2

/-- C6: `loan_period = 0` makes `process_record` fail with the distinct
division-by-zero arithmetic error, producing no row at all; every input
with `loan_period ≠ 0` produces a complete row (no partial rows, no
infinity or NaN propagated). -/
theorem process_record_zero_period (d : LoanInput) :
    (d.loan_period = 0 →
      process_record d = Except.error PyArithError.zeroDivisionError) ∧
    (d.loan_period ≠ 0 → ∃ row, process_record d = Except.ok row) := by
  constructor
  · intro h
    unfold process_record
    rw [if_pos h]
  · intro h
    unfold process_record
    rw [if_neg h]
    exact ⟨_, rfl⟩

/-- A record with `loan_period = 0`, otherwise the sample data. -/
def zeroPeriodInput : LoanInput := { sampleInput with loan_period := 0 }

/-- Witness for C6: the concrete zero-period record errors out. -/
theorem process_record_zero_period_witness :
    process_record zeroPeriodInput = Except.error PyArithError.zeroDivisionError :=
  (process_record_zero_period zeroPeriodInput).1 rfl

/-- Helper: the lookup at `loan_percentage = 100` is not applicable
(`100 > 95.01`). -/
lemma calculate_insurance_rate_hundred (p : ℤ) :
    calculate_insurance_rate 100 p = none := by
  unfold calculate_insurance_rate
  rw [if_pos (by norm_num)]

/-- C7: `down_payment = 0` zeroes `loan_amount`, `principal` and
`total_interest`, and `insurance_monthly` is derived from the rate looked
up at `loan_percentage = 100 - 0 = 100` applied to the zero loan amount. -/
theorem process_record_zero_down_payment (d : LoanInput)
    (h0 : d.down_payment = 0) (_h : d.loan_period ≠ 0) :
    loan_amount d = 0 ∧ principal d = 0 ∧ total_interest d = 0 ∧
    loan_percentage d = 100 ∧
    insurance_monthly d =
      Option.map (fun r => roundHalfEven2 (0 * r / 12))
        (calculate_insurance_rate 100 d.loan_period) := by
  have hla : loan_amount d = 0 := by
    simp [loan_amount, h0]
  have hlp : loan_percentage d = 100 := by
    simp [loan_percentage, h0]
  refine ⟨hla, ?_, ?_, hlp, ?_⟩
  · simp [principal, base_principal, hla]
  · simp [total_interest, interest_value, base_interest, hla]
  · unfold insurance_monthly
    rw [hlp, calculate_insurance_rate_hundred]
    rfl

/-- A record with `down_payment = 0`, otherwise the sample data. -/
def zeroDownPaymentInput : LoanInput := { sampleInput with down_payment := 0 }

/-- Witness for C7 at the concrete zero-down-payment record. -/
theorem process_record_zero_down_payment_witness :
    loan_amount zeroDownPaymentInput = 0 ∧ principal zeroDownPaymentInput = 0 ∧
    total_interest zeroDownPaymentInput = 0 ∧
    loan_percentage zeroDownPaymentInput = 100 ∧
    insurance_monthly zeroDownPaymentInput =
      Option.map (fun r => roundHalfEven2 (0 * r / 12))
        (calculate_insurance_rate 100 zeroDownPaymentInput.loan_period) :=
  process_record_zero_down_payment zeroDownPaymentInput rfl (by decide)

/-- Updating `monthly_principal_reduction` leaves every upstream value
unchanged: `principal` over the updated record as a function of the
original `base_principal`. -/
lemma principal_update (d : LoanInput) (r : ℚ) :
    principal { d with monthly_principal_reduction := r } =
      base_principal d - base_principal d * r / 100 := rfl

/-- Updating `total_interest_reduction` leaves every upstream value
unchanged: `total_interest` over the updated record as a function of the
original `interest_value`. -/
lemma total_interest_update (d : LoanInput) (r : ℚ) :
    total_interest { d with total_interest_reduction := r } =
      interest_value d - interest_value d * r / 100 := rfl

/-- C9: doubling `A` with all other fields fixed exactly doubles
`purchase_value`, `loan_amount`, `principal` and `total_interest`. -/
theorem process_record_scale (d : LoanInput) (_h : d.loan_period ≠ 0) :
    purchase_value { d with A := 2 * d.A } = 2 * purchase_value d ∧
    loan_amount { d with A := 2 * d.A } = 2 * loan_amount d ∧
    principal { d with A := 2 * d.A } = 2 * principal d ∧
    total_interest { d with A := 2 * d.A } = 2 * total_interest d := by
  simp only [purchase_value, loan_amount, principal, base_principal,
    total_interest, interest_value, base_interest]
  refine ⟨by ring, by ring, by ring, by ring⟩

/-- Witness for C9 at the sample record. -/
theorem process_record_scale_witness :
    purchase_value { sampleInput with A := 2 * sampleInput.A } =
      2 * purchase_value sampleInput ∧
    loan_amount { sampleInput with A := 2 * sampleInput.A } =
      2 * loan_amount sampleInput ∧
    principal { sampleInput with A := 2 * sampleInput.A } =
      2 * principal sampleInput ∧
    total_interest { sampleInput with A := 2 * sampleInput.A } =
      2 * total_interest sampleInput :=
  process_record_scale sampleInput (by decide)

/-- The sample record with `purchase_value_reduction = 0` (so
`loan_amount = 0`) and `monthly_principal_reduction = 10`. -/
def zeroBaseInput : LoanInput :=
  { sampleInput with purchase_value_reduction := 0, monthly_principal_reduction := 10 }

/-- C8 counterexample: raising `monthly_principal_reduction` from 10 to 20
(neither value at the 0/100 boundary, `loan_period = 16 ≠ 0`) does not
strictly decrease `principal`: with `purchase_value_reduction = 0` the
principal stays equal (at 0) away from any boundary. -/
theorem principal_reduction_not_strictly_monotone :
    zeroBaseInput.monthly_principal_reduction = 10 ∧
    zeroBaseInput.loan_period = 16 ∧
    principal { zeroBaseInput with monthly_principal_reduction := 20 } =
      principal zeroBaseInput ∧
    principal zeroBaseInput = 0 ∧
    ¬ (principal { zeroBaseInput with monthly_principal_reduction := 20 } <
        principal zeroBaseInput) := by
  have h1 : principal zeroBaseInput = 0 := by
    norm_num [principal, base_principal, loan_amount, purchase_value,
      zeroBaseInput, sampleInput]
  have h2 : principal { zeroBaseInput with monthly_principal_reduction := 20 } = 0 := by
    norm_num [principal, base_principal, loan_amount, purchase_value,
      zeroBaseInput, sampleInput]
  refine ⟨rfl, rfl, ?_, h1, ?_⟩
  · rw [h1, h2]
  · rw [h1, h2]
    norm_num

/-- C8 amended: increasing `monthly_principal_reduction` (resp.
`total_interest_reduction`) strictly decreases `principal` (resp.
`total_interest`) whenever the reduced base (`base_principal`, resp.
`interest_value`) is positive, and holds it exactly equal whenever that
base is zero — e.g. whenever `loan_amount = 0` — not only at the 0/100
boundary. -/
theorem reduction_monotone (d : LoanInput) (r₁ r₂ : ℚ) (hr : r₁ < r₂) :
    (0 < base_principal d →
      principal { d with monthly_principal_reduction := r₂ } <
        principal { d with monthly_principal_reduction := r₁ }) ∧
    (base_principal d = 0 →
      principal { d with monthly_principal_reduction := r₂ } =
        principal { d with monthly_principal_reduction := r₁ }) ∧
    (0 < interest_value d →
      total_interest { d with total_interest_reduction := r₂ } <
        total_interest { d with total_interest_reduction := r₁ }) ∧
    (interest_value d = 0 →
      total_interest { d with total_interest_reduction := r₂ } =
        total_interest { d with total_interest_reduction := r₁ }) := by
  rw [principal_update, principal_update, total_interest_update, total_interest_update]
  refine ⟨?_, ?_, ?_, ?_⟩
  · intro hbp
    nlinarith [mul_pos hbp (sub_pos.mpr hr)]
  · intro hbp
    rw [hbp]
    ring
  · intro hiv
    nlinarith [mul_pos hiv (sub_pos.mpr hr)]
  · intro hiv
    rw [hiv]
    ring

/-- Witness for the amended C8 at the sample record. -/
theorem reduction_monotone_witness :
    principal { sampleInput with monthly_principal_reduction := 20 } <
      principal { sampleInput with monthly_principal_reduction := 10 } ∧
    total_interest { sampleInput with total_interest_reduction := 20 } <
      total_interest { sampleInput with total_interest_reduction := 10 } :=
  ⟨(reduction_monotone sampleInput 10 20 (by norm_num)).1
      (by norm_num [base_principal, loan_amount, purchase_value, sampleInput]),
   (reduction_monotone sampleInput 10 20 (by norm_num)).2.2.1
      (by norm_num [interest_value, base_interest, loan_amount, purchase_value, sampleInput])⟩

/-- Helper: a currency string starts with a dollar sign, so it is never
the literal `"NA"`. -/
lemma dollar_append_ne_NA (s : String) : "$  " ++ s ≠ "NA" := by
  intro h
  have h2 := congrArg String.data h
  rw [String.data_append] at h2
  have h3 : (['$', ' ', ' '] : List Char) ++ s.data = ['N', 'A'] := h2
  simp at h3

/-- C4: for `loan_period ≠ 0` the insurance field of the produced row is
`"NA"` exactly when the rate lookup at `(100 - down_payment, loan_period)`
is not applicable, and otherwise is the formatted
`round(loan_amount * rate / 12, 2)`; a missing rate is a regular result,
not an error. -/
theorem process_record_insurance_field (d : LoanInput) (h : d.loan_period ≠ 0) :
    ∃ row, process_record d = Except.ok row ∧
      (row.insurance_per_month = "NA" ↔
        calculate_insurance_rate (100 - d.down_payment) d.loan_period = none) ∧
      (∀ r, calculate_insurance_rate (100 - d.down_payment) d.loan_period = some r →
        row.insurance_per_month =
          "$  " ++ formatFix2 (roundHalfEven2 (loan_amount d * r / 12))) := by
  unfold process_record
  rw [if_neg h]
  refine ⟨_, rfl, ?_, ?_⟩
  · cases hl : calculate_insurance_rate (100 - d.down_payment) d.loan_period with
    | none => simp [insurance_monthly, loan_percentage, hl]
    | some r => simp [insurance_monthly, loan_percentage, hl, dollar_append_ne_NA]
  · intro r hr
    simp [insurance_monthly, loan_percentage, hr]

/-- Witness for C4 at the sample record. -/
theorem process_record_insurance_field_witness :
    ∃ row, process_record sampleInput = Except.ok row ∧
      (row.insurance_per_month = "NA" ↔
        calculate_insurance_rate (100 - sampleInput.down_payment) sampleInput.loan_period
          = none) ∧
      (∀ r, calculate_insurance_rate (100 - sampleInput.down_payment)
            sampleInput.loan_period = some r →
        row.insurance_per_month =
          "$  " ++ formatFix2 (roundHalfEven2 (loan_amount sampleInput * r / 12))) :=
  process_record_insurance_field sampleInput (by decide)

/-- Helper: evaluate `formatFix2` once the rounded cents are known. -/
lemma formatFix2_of_rnHalfEven (x : ℚ) (c : ℤ) (h : rnHalfEven (100 * x) = c) :
    formatFix2 x = (if c < 0 then "-" else "") ++ commaFmt (c.natAbs / 100) ++ "." ++
      (if c.natAbs % 100 < 10 then "0" ++ toString (c.natAbs % 100)
       else toString (c.natAbs % 100)) := by
  simp only [formatFix2]
  rw [h]

/-- Helper: `fracDigits` on the zero remainder is empty. -/
lemma fracDigits_zero (fuel : ℕ) : fracDigits fuel 0 = [] := by
  cases fuel <;> simp [fracDigits]

/-- Helper: one digit-extraction step of `fracDigits`. -/
lemma fracDigits_step (n m : ℕ) (x y : ℚ) (d : ℤ) (hn : n = m + 1)
    (hx : x ≠ 0) (hd : ⌊10 * x⌋ = d) (hy : 10 * x - (d : ℚ) = y) :
    fracDigits n x = Nat.digitChar d.toNat :: fracDigits m y := by
  subst hn hy
  simp [fracDigits, hx, hd]

/-- Helper: the Python interpolation of the sample down payment `29`. -/
lemma pyRepr_sample_down_payment : pyRepr sampleInput.down_payment = "29" := by
  show pyRepr (29 : ℚ) = "29"
  have hden : (29 : ℚ).den = 1 := by norm_num
  have hnum : (29 : ℚ).num = 29 := by norm_num
  simp only [pyRepr, hden, hnum]
  decide

/-- Helper: the Python interpolation of the sample annuity interest `8.7`. -/
lemma pyRepr_sample_annuity_interest : pyRepr sampleInput.annuity_interest = "8.7" := by
  show pyRepr (8.7 : ℚ) = "8.7"
  have he : (8.7 : ℚ) = 87/10 := by norm_num
  rw [he]
  have hden : (87/10 : ℚ).den = 10 := by norm_num
  have habs : |(87/10 : ℚ)| = 87/10 := abs_of_pos (by norm_num)
  have hf : ⌊(87/10 : ℚ)⌋ = 8 := by norm_num
  have hfd : fracDigits 30 ((87/10 : ℚ) - ((8 : ℤ) : ℚ)) = ['7'] := by
    have h0 : ((87/10 : ℚ) - ((8 : ℤ) : ℚ)) = 7/10 := by
      push_cast
      norm_num
    rw [h0, fracDigits_step 30 29 (7/10) 0 7 rfl (by norm_num) (by norm_num)
      (by push_cast; norm_num), fracDigits_zero]
    decide
  simp only [pyRepr, hden, habs, hf]
  rw [if_neg (by norm_num), if_neg (by norm_num), hfd]
  decide

/-- Helper: the sample purchase value, exactly. -/
lemma sample_purchase_value : purchase_value sampleInput = 80853962553/6250 := by
  norm_num [purchase_value, sampleInput]

/-- Helper: the sample loan amount, exactly. -/
lemma sample_loan_amount : loan_amount sampleInput = 2344764914037/625000 := by
  norm_num [loan_amount, purchase_value, sampleInput]

/-- Helper: the sample principal, exactly. -/
lemma sample_principal : principal sampleInput = 110203950959739/6250000000 := by
  norm_num [principal, base_principal, loan_amount, purchase_value, sampleInput]

/-- Helper: the sample total interest, exactly. -/
lemma sample_total_interest :
    total_interest sampleInput = 862692941467235151/195312500000 := by
  norm_num [total_interest, interest_value, base_interest, loan_amount,
    purchase_value, sampleInput]

/-- Helper: the sample monthly insurance: the rate at
`loan_percentage = 71` is `0.0032` and the rounded premium is `1000.43`. -/
lemma sample_insurance_monthly :
    insurance_monthly sampleInput = some (100043/100) := by
  have hlp : loan_percentage sampleInput = 71 := by
    norm_num [loan_percentage, sampleInput]
  have hper : sampleInput.loan_period = 16 := rfl
  have hr : calculate_insurance_rate 71 16 = some 0.0032 := by
    unfold calculate_insurance_rate
    rw [if_neg (by norm_num), if_pos (by norm_num)]
  unfold insurance_monthly
  rw [hlp, hper, hr]
  have harg : loan_amount sampleInput * 0.0032 / 12 = 781588304679/781250000 := by
    rw [sample_loan_amount]
    norm_num
  have hrn : rnHalfEven (100 * (781588304679/781250000 : ℚ)) = 100043 := by
    unfold rnHalfEven
    norm_num
  simp only [roundHalfEven2, harg, hrn]
  norm_num

/-- Helper: formatted sample purchase value. -/
lemma sample_purchase_value_str :
    formatFix2 (purchase_value sampleInput) = "12,936,634.01" := by
  rw [sample_purchase_value,
    formatFix2_of_rnHalfEven _ 1293663401 (by unfold rnHalfEven; norm_num)]
  decide

/-- Helper: formatted sample loan amount. -/
lemma sample_loan_amount_str :
    formatFix2 (loan_amount sampleInput) = "3,751,623.86" := by
  rw [sample_loan_amount,
    formatFix2_of_rnHalfEven _ 375162386 (by unfold rnHalfEven; norm_num)]
  decide

/-- Helper: formatted sample principal. -/
lemma sample_principal_str : formatFix2 (principal sampleInput) = "17,632.63" := by
  rw [sample_principal,
    formatFix2_of_rnHalfEven _ 1763263 (by unfold rnHalfEven; norm_num)]
  decide

/-- Helper: formatted sample total interest. -/
lemma sample_total_interest_str :
    formatFix2 (total_interest sampleInput) = "4,416,987.86" := by
  rw [sample_total_interest,
    formatFix2_of_rnHalfEven _ 441698786 (by unfold rnHalfEven; norm_num)]
  decide

/-- Helper: formatted sample monthly insurance. -/
lemma sample_insurance_str : formatFix2 (100043/100 : ℚ) = "1,000.43" := by
  rw [formatFix2_of_rnHalfEven _ 100043 (by unfold rnHalfEven; norm_num)]
  decide

/-- C5 counterexample: at the sample record the spec's displayed numbers
are wrong: `88850508.30 × 14.56 / 100` is `12936634.00848`, not
`12,933,673.97`, and the loan amount is `3,751,623.86…`, not
`≈ 3,750,765.45`; neither raw nor display-rounded values match. -/
theorem sample_values_differ_from_spec :
    purchase_value sampleInput ≠ 12933673.97 ∧
    roundHalfEven2 (purchase_value sampleInput) ≠ 12933673.97 ∧
    formatFix2 (purchase_value sampleInput) ≠ "12,933,673.97" ∧
    loan_amount sampleInput ≠ 3750765.45 ∧
    roundHalfEven2 (loan_amount sampleInput) ≠ 3750765.45 := by
  have hrd : roundHalfEven2 (purchase_value sampleInput) = 1293663401/100 := by
    rw [sample_purchase_value]
    simp only [roundHalfEven2]
    rw [show rnHalfEven (100 * (80853962553/6250 : ℚ)) = 1293663401 by
      unfold rnHalfEven; norm_num]
    norm_num
  have hrd2 : roundHalfEven2 (loan_amount sampleInput) = 375162386/100 := by
    rw [sample_loan_amount]
    simp only [roundHalfEven2]
    rw [show rnHalfEven (100 * (2344764914037/625000 : ℚ)) = 375162386 by
      unfold rnHalfEven; norm_num]
    norm_num
  refine ⟨?_, ?_, ?_, ?_, ?_⟩
  · rw [sample_purchase_value]
    norm_num
  · rw [hrd]
    norm_num
  · rw [sample_purchase_value_str]
    decide
  · rw [sample_loan_amount]
    norm_num
  · rw [hrd2]
    norm_num

/-- C5 amended: at the sample record the pipeline gives
`purchase_value = 88850508.30 × 14.56 / 100 = 12936634.00848` (displayed
`12,936,634.01`) and `loan_amount = 3751623.8624592` (displayed
`3,751,623.86`), and the full produced row carries the two-decimal
currency strings with thousands separators. -/
theorem sample_record_output :
    purchase_value sampleInput = 1293663400848/100000 ∧
    loan_amount sampleInput = 37516238624592/10000000 ∧
    process_record sampleInput = Except.ok {
      sample_no := "1"
      customer_reference_number := "CR12345"
      customer_name := "John Doe"
      city_state := "New York, NY"
      purchase_value_and_down_payment := "$  12,936,634.01 and 29%"
      loan_period_and_annuity_interest := "16 Years and 8.7%"
      guarantor_name := "Mark Doe"
      guarantor_reference_number := "GR98765"
      loan_amount_and_principal := "$  3,751,623.86 , 17,632.63"
      total_interest_for_loan := "$  4,416,987.86"
      insurance_per_month := "$  1,000.43" } := by
  refine ⟨by rw [sample_purchase_value]; norm_num,
    by rw [sample_loan_amount]; norm_num, ?_⟩
  unfold process_record
  rw [if_neg (by decide)]
  rw [sample_purchase_value_str, sample_loan_amount_str, sample_principal_str,
    sample_total_interest_str, pyRepr_sample_down_payment,
    pyRepr_sample_annuity_interest, sample_insurance_monthly]
  congr 1
  congr 1
  all_goals first
    | rfl
    | (show "$  " ++ formatFix2 ((100043 : ℚ)/100) = "$  1,000.43"
       rw [sample_insurance_str]
       rfl)
